import Mathlib

/-!
# Environment accessors of the `support` package (`support/environment.go`)

A shallow embedding of the Go file `support/environment.go` and the properties of
its getters.

Modelling conventions.

* Go strings are modelled by Lean `String`s (sequences of Unicode scalar values, that
  is, well-formed UTF-8 text).  `len(s)` is the UTF-8 byte length.
* The process environment and the `*testing.T` reached through `t.T()` are the two
  pieces of mutable state the file touches.  They are gathered in `World`, and every
  Go function becomes a state-passing function `World → Outcome α × World`.
* A Go function can finish in three ways: it returns, it panics (here only the
  runtime error "index out of range"), or its goroutine is stopped by
  `runtime.Goexit`, which is how `testing.T.FailNow` halts a test.
* The constants `RayVersion`, `RayImage`, `RayROCmImage`, `RayTorchCudaImage` and
  `RayTorchROCmImage` are declared in another file of the package; the getters that
  use them take them as a parameter (`Defaults`).
-/

namespace Support

/-! ## Machine model -/

/-- The process environment: the list of `key=value` bindings of the process.  When a
key occurs more than once the first binding is the one `os.LookupEnv` sees. -/
abbrev Env := List (String × String)

/-- Run-time panics raised by the Go runtime. -/
inductive GoPanic where
  /-- The message `index out of range [index] with length length`. -/
  | indexOutOfRange (index length : Nat)
  deriving DecidableEq, Repr

/-- The observable state of a `*testing.T`: the lines handed to its log, whether the
test has been marked as failed, and whether it has been marked as finished. -/
structure TestingT where
  output : List String
  failed : Bool
  finished : Bool
  deriving DecidableEq, Repr

/-- The state the accessors run against. -/
structure World where
  env : Env
  t : TestingT
  deriving DecidableEq, Repr

/-- How a call ends. -/
inductive Outcome (α : Type) where
  /-- Normal return with a value. -/
  | ret (a : α)
  /-- A run-time panic unwinds the goroutine. -/
  | panicked (p : GoPanic)
  /-- The goroutine was stopped by `runtime.Goexit`; no value is produced. -/
  | goexit
  deriving DecidableEq, Repr

/-- A Go computation. -/
def Go (α : Type) : Type := World → Outcome α × World

/-- Sequencing: the continuation runs only after a normal return. -/
def Go.bind {α β : Type} (m : Go α) (f : α → Go β) : Go β := fun w =>
  match m w with
  | (Outcome.ret a, w1) => f a w1
  | (Outcome.panicked p, w1) => (Outcome.panicked p, w1)
  | (Outcome.goexit, w1) => (Outcome.goexit, w1)

instance : Monad Go where
  pure a := fun w => (Outcome.ret a, w)
  bind := Go.bind

/-- The outcome of running `m` in `w`. -/
def Go.result {α : Type} (m : Go α) (w : World) : Outcome α := (m w).1

/-- The world after running `m` in `w`. -/
def Go.after {α : Type} (m : Go α) (w : World) : World := (m w).2

/-! ## Standard library -/

/-- Go `os.LookupEnv`: the value of the variable and `true` when it is present,
otherwise the empty string and `false`. -/
def os.LookupEnv (key : String) : Go (String × Bool) := fun w =>
  match w.env.lookup key with
  | some v => (Outcome.ret (v, true), w)
  | none => (Outcome.ret ("", false), w)

/-- Go `strings.Index` on character sequences: the position of the first occurrence
of `sep` in `s`, `none` standing for `-1`. -/
def strings.IndexChars (sep : List Char) : List Char → Option Nat
  | [] => if sep.isEmpty then some 0 else none
  | c :: cs =>
    if sep.isPrefixOf (c :: cs) then some 0
    else (strings.IndexChars sep cs).map (· + 1)

/-- Go `strings.Index`. -/
def strings.Index (s sep : String) : Option Nat := strings.IndexChars sep.data s.data

/-- The loop of Go `strings.Count` for a non-empty `sep`; `fuel` bounds the number of
iterations. -/
def strings.countLoop (sep : List Char) : Nat → List Char → Nat
  | 0, _ => 0
  | fuel + 1, s =>
    match strings.IndexChars sep s with
    | none => 0
    | some i => strings.countLoop sep fuel (s.drop (i + sep.length)) + 1

/-- Go `strings.Count`: the number of non-overlapping occurrences of `sep` in `s`, and
the number of characters plus one when `sep` is empty. -/
def strings.Count (s sep : String) : Nat :=
  if sep.data.isEmpty then s.length + 1
  else strings.countLoop sep.data (s.length + 1) s.data

/-- Go `strings.explode`: `s` cut into at most `n` pieces of one character each, the
last piece holding the rest of `s`; a negative `n` means no bound. -/
def strings.explode (s : List Char) (n : Int) : List (List Char) :=
  let l := s.length
  let n : Nat := if n < 0 ∨ n > l then l else n.toNat
  if n = 0 then []
  else (s.take (n - 1)).map (fun c => [c]) ++ [s.drop (n - 1)]

/-- The loop of Go `strings.genSplit` (with `sepSave = 0`); the first argument is the
number of iterations left, `n - i`. -/
def strings.genSplitLoop (sep : List Char) : Nat → List Char → List (List Char)
  | 0, s => [s]
  | k + 1, s =>
    match strings.IndexChars sep s with
    | none => [s]
    | some m => s.take m :: strings.genSplitLoop sep k (s.drop (m + sep.length))

/-- Go `strings.genSplit` with `sepSave = 0`. -/
def strings.genSplit (s sep : String) (n : Int) : List String :=
  if n = 0 then []
  else if sep = "" then (strings.explode s.data n).map String.mk
  else
    let n : Int := if n < 0 then (strings.Count s sep : Int) + 1 else n
    let n : Int := if n > (s.utf8ByteSize : Int) + 1 then (s.utf8ByteSize : Int) + 1 else n
    (strings.genSplitLoop sep.data (n.toNat - 1) s.data).map String.mk

/-- Go `strings.SplitN`. -/
def strings.SplitN (s sep : String) (n : Int) : List String := strings.genSplit s sep n

/-- Indexing a slice, `a[i]`: panics when `i` is not below `len(a)`. -/
def sliceIndex (a : List String) (i : Nat) : Go String := fun w =>
  match a.get? i with
  | some x => (Outcome.ret x, w)
  | none => (Outcome.panicked (GoPanic.indexOutOfRange i a.length), w)

/-- Go `fmt.Sprintf` for formats whose only verbs are `%s` and whose operands are
strings: each `%s` is replaced by the next operand. -/
def fmt.sprintfChars : List Char → List String → List Char
  | [], _ => []
  | '%' :: 's' :: rest, a :: args => a.data ++ fmt.sprintfChars rest args
  | c :: rest, args => c :: fmt.sprintfChars rest args

/-- Go `fmt.Sprintf`, see `fmt.sprintfChars`. -/
def fmt.Sprintf (format : String) (args : List String) : String :=
  String.mk (fmt.sprintfChars format.data args)

/-- Go `(*testing.T).Logf`: the formatted text is added to the log of the test. -/
def testing.Logf (format : String) (args : List String) : Go Unit := fun w =>
  (Outcome.ret (), { w with t := { w.t with output := w.t.output ++ [fmt.Sprintf format args] } })

/-- Go `(*testing.T).FailNow`: marks the test as failed and finished, then stops the
goroutine with `runtime.Goexit`. -/
def testing.FailNow : Go Unit := fun w =>
  (Outcome.goexit, { w with t := { w.t with failed := true, finished := true } })

/-- Go `(*testing.T).Fatalf`: `Logf` followed by `FailNow`. -/
def testing.Fatalf (format : String) (args : List String) : Go Unit := do
  testing.Logf format args
  testing.FailNow

/-! ## `support/environment.go` -/

def CodeFlareTestRayVersion : String := "CODEFLARE_TEST_RAY_VERSION"
def CodeFlareTestRayImage : String := "CODEFLARE_TEST_RAY_IMAGE"
def CodeFlareTestPyTorchImage : String := "CODEFLARE_TEST_PYTORCH_IMAGE"
def CodeFlareTestOutputDir : String := "CODEFLARE_TEST_OUTPUT_DIR"
def InstaScaleOcmSecret : String := "INSTASCALE_OCM_SECRET"
def ClusterID : String := "CLUSTERID"
def ClusterTypeEnvVar : String := "CLUSTER_TYPE"
def ClusterHostname : String := "CLUSTER_HOSTNAME"
def mnistDatasetURL : String := "MNIST_DATASET_URL"
def pipIndexURL : String := "PIP_INDEX_URL"
def pipTrustedHost : String := "PIP_TRUSTED_HOST"
def storageDefaultEndpoint : String := "AWS_DEFAULT_ENDPOINT"
def storageDefaultRegion : String := "AWS_DEFAULT_REGION"
def storageAccessKeyId : String := "AWS_ACCESS_KEY_ID"
def storageSecretKey : String := "AWS_SECRET_ACCESS_KEY"
def storageBucketName : String := "AWS_STORAGE_BUCKET"
def storageBucketMnistDir : String := "AWS_STORAGE_BUCKET_MNIST_DIR"

/-- Go `type ClusterType string`. -/
structure ClusterType where
  val : String
  deriving DecidableEq, Repr

def OsdCluster : ClusterType := ⟨"OSD"⟩
def OcpCluster : ClusterType := ⟨"OCP"⟩
def HypershiftCluster : ClusterType := ⟨"HYPERSHIFT"⟩
def KindCluster : ClusterType := ⟨"KIND"⟩
def UndefinedCluster : ClusterType := ⟨"UNDEFINED"⟩

/-- The default component versions and images, constants of the package declared
outside `environment.go`. -/
structure Defaults where
  RayVersion : String
  RayImage : String
  RayROCmImage : String
  RayTorchCudaImage : String
  RayTorchROCmImage : String
  deriving DecidableEq, Repr

def lookupEnvOrDefault (key value : String) : Go String := do
  let (v, ok) ← os.LookupEnv key
  if ok then pure v else pure value

def GetRayVersion (d : Defaults) : Go String :=
  lookupEnvOrDefault CodeFlareTestRayVersion d.RayVersion

def GetRayImage (d : Defaults) : Go String :=
  lookupEnvOrDefault CodeFlareTestRayImage d.RayImage

def GetRayROCmImage (d : Defaults) : Go String :=
  lookupEnvOrDefault CodeFlareTestRayImage d.RayROCmImage

def GetRayTorchCudaImage (d : Defaults) : Go String :=
  lookupEnvOrDefault CodeFlareTestRayImage d.RayTorchCudaImage

def GetRayTorchROCmImage (d : Defaults) : Go String :=
  lookupEnvOrDefault CodeFlareTestRayImage d.RayTorchROCmImage

def GetPyTorchImage : Go String :=
  lookupEnvOrDefault CodeFlareTestPyTorchImage "pytorch/pytorch:1.11.0-cuda11.3-cudnn8-runtime"

def GetInstascaleOcmSecret : Go (String × String) := do
  let res := strings.SplitN (← lookupEnvOrDefault InstaScaleOcmSecret "default/instascale-ocm-secret") "/" 2
  let r0 ← sliceIndex res 0
  let r1 ← sliceIndex res 1
  pure (r0, r1)

def GetClusterId : Go (String × Bool) :=
  os.LookupEnv ClusterID

/-- The receiver `t.T()` is the `*testing.T` of the world. -/
def GetClusterType : Go ClusterType := do
  let (clusterType, ok) ← os.LookupEnv ClusterTypeEnvVar
  if !ok then
    testing.Logf "Environment variable %s is unset." [ClusterTypeEnvVar]
    pure UndefinedCluster
  else if clusterType = "OSD" then pure OsdCluster
  else if clusterType = "OCP" then pure OcpCluster
  else if clusterType = "HYPERSHIFT" then pure HypershiftCluster
  else if clusterType = "KIND" then pure KindCluster
  else
    testing.Logf "Environment variable %s is unset or contains an incorrect value: '%s'"
      [ClusterTypeEnvVar, clusterType]
    pure UndefinedCluster

/-- The receiver `t.T()` is the `*testing.T` of the world. -/
def GetClusterHostname : Go String := do
  let (hostname, ok) ← os.LookupEnv ClusterHostname
  if !ok then
    testing.Fatalf "Expected environment variable %s not found, please define cluster hostname."
      [ClusterHostname]
  pure hostname

def GetMnistDatasetURL : Go String :=
  lookupEnvOrDefault mnistDatasetURL "https://ossci-datasets.s3.amazonaws.com/mnist/"

def GetStorageBucketDefaultEndpoint : Go (String × Bool) := do
  let (storage_endpoint, «exists») ← os.LookupEnv storageDefaultEndpoint
  pure (storage_endpoint, «exists»)

def GetStorageBucketDefaultRegion : Go (String × Bool) := do
  let (storage_default_region, «exists») ← os.LookupEnv storageDefaultRegion
  pure (storage_default_region, «exists»)

def GetStorageBucketAccessKeyId : Go (String × Bool) := do
  let (storage_access_key_id, «exists») ← os.LookupEnv storageAccessKeyId
  pure (storage_access_key_id, «exists»)

def GetStorageBucketSecretKey : Go (String × Bool) := do
  let (storage_secret_key, «exists») ← os.LookupEnv storageSecretKey
  pure (storage_secret_key, «exists»)

def GetStorageBucketName : Go (String × Bool) := do
  let (storage_bucket_name, «exists») ← os.LookupEnv storageBucketName
  pure (storage_bucket_name, «exists»)

def GetStorageBucketMnistDir : Go (String × Bool) := do
  let (storage_bucket_mnist_dir, «exists») ← os.LookupEnv storageBucketMnistDir
  pure (storage_bucket_mnist_dir, «exists»)

def GetPipIndexURL : Go String :=
  lookupEnvOrDefault pipIndexURL "https://pypi.python.org/simple"

def GetPipTrustedHost : Go String :=
  lookupEnvOrDefault pipTrustedHost ""

/-! ## Vocabulary of the specification -/

/-- Adding a line to the log of the test. -/
def World.logged (w : World) (line : String) : World :=
  { w with t := { w.t with output := w.t.output ++ [line] } }

/-- The getter `g` substitutes a default: in every world it returns `dflt` when the
variable `key` is unset, and the value of the variable when it is set. -/
def SubstitutesDefault (g : Go String) (key dflt : String) : Prop :=
  ∀ w : World,
    (w.env.lookup key = none → g.result w = Outcome.ret dflt) ∧
    (∀ S : String, w.env.lookup key = some S → g.result w = Outcome.ret S)

/-- The getter `g` reports presence: in every world it returns a pair whose flag is
`true` exactly when the variable `key` is set, and whose string is the value of the
variable when it is set and the empty string when it is not. -/
def ReportsPresence (g : Go (String × Bool)) (key : String) : Prop :=
  ∀ w : World, ∃ (v : String) (present : Bool),
    g.result w = Outcome.ret (v, present) ∧
    (present = true ↔ ∃ S : String, w.env.lookup key = some S) ∧
    (∀ S : String, w.env.lookup key = some S → v = S) ∧
    (w.env.lookup key = none → v = "")

/-- The getter `g` only reads the environment: a call leaves the environment as it
found it, and a second call made right after the first ends the same way. -/
def ReadOnlyIdempotent {α : Type} (g : Go α) : Prop :=
  ∀ w : World, (g.after w).env = w.env ∧ g.result (g.after w) = g.result w

/-- The literals `GetClusterType` recognises. -/
def recognisedClusterTypes : List String := ["OSD", "OCP", "HYPERSHIFT", "KIND"]

/-! ## Lemmas about the standard-library model -/

theorem IndexChars_slash_none (s : List Char) (h : '/' ∉ s) :
    strings.IndexChars ['/'] s = none := by
  induction s with
  | nil => simp [strings.IndexChars]
  | cons c cs ih =>
    have hc : ¬ ('/' = c) := fun e => h (e ▸ List.mem_cons_self _ _)
    have hcs : '/' ∉ cs := fun e => h (List.mem_cons_of_mem _ e)
    simp [strings.IndexChars, List.isPrefixOf, hc, ih hcs]

theorem IndexChars_slash_some (s : List Char) (h : '/' ∈ s) :
    ∃ m, strings.IndexChars ['/'] s = some m ∧ '/' ∉ s.take m ∧
      s.take m ++ '/' :: s.drop (m + 1) = s := by
  induction s with
  | nil => simp at h
  | cons c cs ih =>
    by_cases hc : '/' = c
    · subst hc
      exact ⟨0, by simp [strings.IndexChars, List.isPrefixOf], by simp, by simp⟩
    · have hcs : '/' ∈ cs := by
        rcases List.mem_cons.mp h with e | e
        · exact absurd e hc
        · exact e
      obtain ⟨m, hm, hnot, heq⟩ := ih hcs
      refine ⟨m + 1, by simp [strings.IndexChars, List.isPrefixOf, hc, hm], ?_, ?_⟩
      · simp [List.take, hc, hnot]
      · simp [List.take, List.drop, heq]

theorem utf8ByteSize_pos_of_mem (s : String) (c : Char) (h : c ∈ s.data) :
    0 < s.utf8ByteSize := by
  obtain ⟨l⟩ := s
  cases l with
  | nil => simp at h
  | cons a as =>
    simp only [String.utf8ByteSize, String.utf8ByteSize.go]
    have := Char.utf8Size_pos a
    omega

theorem genSplitLoop_slash_absent (k : Nat) (s : List Char) (h : '/' ∉ s) :
    strings.genSplitLoop ['/'] k s = [s] := by
  cases k <;> simp [strings.genSplitLoop, IndexChars_slash_none s h]

theorem SplitN_slash_absent (s : String) (h : '/' ∉ s.data) :
    strings.SplitN s "/" 2 = [s] := by
  have hsep : ¬ ("/" = "") := by decide
  have hdata : ("/" : String).data = ['/'] := rfl
  simp only [strings.SplitN, strings.genSplit, hsep, if_false, hdata]
  rw [genSplitLoop_slash_absent _ _ h]
  simp

theorem SplitN_slash_present (s : String) (h : '/' ∈ s.data) :
    ∃ ns name : String, strings.SplitN s "/" 2 = [ns, name] ∧ '/' ∉ ns.data ∧
      ns ++ "/" ++ name = s := by
  have hsep : ¬ ("/" = "") := by decide
  have hpos := utf8ByteSize_pos_of_mem s '/' h
  obtain ⟨m, hm, hnot, heq⟩ := IndexChars_slash_some s.data h
  refine ⟨String.mk (s.data.take m), String.mk (s.data.drop (m + 1)), ?_, hnot, ?_⟩
  · have hclamp : ¬ ((s.utf8ByteSize : Int) + 1 < 2) := by omega
    have hdata : ("/" : String).data = ['/'] := rfl
    have hlen : (['/'] : List Char).length = 1 := rfl
    simp only [strings.SplitN, strings.genSplit, hsep, if_false, hdata]
    norm_num
    split_ifs
    show List.map String.mk (strings.genSplitLoop ['/'] 1 s.data) = _
    simp [strings.genSplitLoop, hm]
  · apply String.ext
    simp [heq]


/-! ## How each accessor runs -/

theorem LookupEnv_run (key : String) (w : World) :
    os.LookupEnv key w =
      (Outcome.ret ((w.env.lookup key).getD "", (w.env.lookup key).isSome), w) := by
  unfold os.LookupEnv
  cases w.env.lookup key <;> rfl

theorem lookupEnvOrDefault_run (key value : String) (w : World) :
    lookupEnvOrDefault key value w = (Outcome.ret ((w.env.lookup key).getD value), w) := by
  simp only [lookupEnvOrDefault, os.LookupEnv, bind, Go.bind, pure]
  cases w.env.lookup key <;> rfl

theorem presence_run (key : String) (w : World) :
    (do let (v, b) ← os.LookupEnv key; pure (v, b) : Go (String × Bool)) w =
      (Outcome.ret ((w.env.lookup key).getD "", (w.env.lookup key).isSome), w) := by
  simp only [os.LookupEnv, bind, Go.bind, pure]
  cases w.env.lookup key <;> rfl

theorem GetInstascaleOcmSecret_run (w : World) :
    GetInstascaleOcmSecret w =
      (sliceIndex (strings.SplitN ((w.env.lookup "INSTASCALE_OCM_SECRET").getD
          "default/instascale-ocm-secret") "/" 2) 0 >>= fun r0 =>
       sliceIndex (strings.SplitN ((w.env.lookup "INSTASCALE_OCM_SECRET").getD
          "default/instascale-ocm-secret") "/" 2) 1 >>= fun r1 => pure (r0, r1)) w := by
  simp only [GetInstascaleOcmSecret, bind, Go.bind, lookupEnvOrDefault_run, InstaScaleOcmSecret]

theorem GetInstascaleOcmSecret_absent (w : World) (V : String)
    (hV : (w.env.lookup "INSTASCALE_OCM_SECRET").getD "default/instascale-ocm-secret" = V)
    (h : '/' ∉ V.data) :
    GetInstascaleOcmSecret w = (Outcome.panicked (GoPanic.indexOutOfRange 1 1), w) := by
  rw [GetInstascaleOcmSecret_run, hV, SplitN_slash_absent V h]
  rfl

theorem GetInstascaleOcmSecret_present (w : World) (V : String)
    (hV : (w.env.lookup "INSTASCALE_OCM_SECRET").getD "default/instascale-ocm-secret" = V)
    (h : '/' ∈ V.data) :
    ∃ ns name : String, GetInstascaleOcmSecret w = (Outcome.ret (ns, name), w) ∧
      '/' ∉ ns.data ∧ ns ++ "/" ++ name = V := by
  obtain ⟨ns, name, hsplit, hns, hcat⟩ := SplitN_slash_present V h
  refine ⟨ns, name, ?_, hns, hcat⟩
  rw [GetInstascaleOcmSecret_run, hV, hsplit]
  rfl

theorem Sprintf_unset :
    fmt.Sprintf "Environment variable %s is unset." [ClusterTypeEnvVar] =
      "Environment variable CLUSTER_TYPE is unset." := by decide

theorem Sprintf_incorrect (v : String) :
    fmt.Sprintf "Environment variable %s is unset or contains an incorrect value: '%s'"
        [ClusterTypeEnvVar, v] =
      "Environment variable CLUSTER_TYPE is unset or contains an incorrect value: '" ++ v ++ "'" := by
  apply String.ext
  rfl


theorem GetClusterType_unset (w : World) (h : w.env.lookup "CLUSTER_TYPE" = none) :
    GetClusterType w =
      (Outcome.ret UndefinedCluster,
        w.logged "Environment variable CLUSTER_TYPE is unset.") := by
  simp only [GetClusterType, bind, Go.bind, pure, os.LookupEnv, ClusterTypeEnvVar, h,
    testing.Logf]
  rfl

theorem GetClusterType_set (w : World) (v : String) (h : w.env.lookup "CLUSTER_TYPE" = some v) :
    GetClusterType w =
      if v = "OSD" then (Outcome.ret OsdCluster, w)
      else if v = "OCP" then (Outcome.ret OcpCluster, w)
      else if v = "HYPERSHIFT" then (Outcome.ret HypershiftCluster, w)
      else if v = "KIND" then (Outcome.ret KindCluster, w)
      else (Outcome.ret UndefinedCluster,
        w.logged ("Environment variable CLUSTER_TYPE is unset or contains an incorrect value: '"
          ++ v ++ "'")) := by
  simp only [GetClusterType, bind, Go.bind, pure, os.LookupEnv, ClusterTypeEnvVar, h,
    testing.Logf]
  split_ifs <;> first | rfl | (simp at *)

theorem GetClusterHostname_set (w : World) (v : String)
    (h : w.env.lookup "CLUSTER_HOSTNAME" = some v) :
    GetClusterHostname w = (Outcome.ret v, w) := by
  simp only [GetClusterHostname, bind, Go.bind, pure, os.LookupEnv, ClusterHostname, h]
  rfl

theorem GetClusterHostname_unset (w : World) (h : w.env.lookup "CLUSTER_HOSTNAME" = none) :
    GetClusterHostname w =
      (Outcome.goexit,
        { w with
          t := {
            output := w.t.output ++
              ["Expected environment variable CLUSTER_HOSTNAME not found, please define cluster hostname."],
            failed := true,
            finished := true } }) := by
  simp only [GetClusterHostname, bind, Go.bind, pure, os.LookupEnv, ClusterHostname, h,
    testing.Fatalf, testing.Logf, testing.FailNow]
  rfl

/-! ## Generic facts about the three shapes of getter -/

theorem substitutesDefault_lookup (key dflt : String) :
    SubstitutesDefault (lookupEnvOrDefault key dflt) key dflt := by
  intro w
  constructor
  · intro h
    simp [Go.result, lookupEnvOrDefault_run, h]
  · intro S h
    simp [Go.result, lookupEnvOrDefault_run, h]

theorem reportsPresence_of_run (g : Go (String × Bool)) (key : String)
    (hg : ∀ w : World, g w =
      (Outcome.ret ((w.env.lookup key).getD "", (w.env.lookup key).isSome), w)) :
    ReportsPresence g key := by
  intro w
  refine ⟨(w.env.lookup key).getD "", (w.env.lookup key).isSome, ?_, ?_, ?_, ?_⟩
  · simp [Go.result, hg]
  · cases w.env.lookup key <;> simp
  · intro S h
    simp [h]
  · intro h
    simp [h]

theorem readOnlyIdempotent_of_env {α : Type} (g : Go α) (r : Env → Outcome α)
    (hres : ∀ w : World, (g w).1 = r w.env) (henv : ∀ w : World, (g w).2.env = w.env) :
    ReadOnlyIdempotent g := by
  intro w
  refine ⟨henv w, ?_⟩
  simp only [Go.result, Go.after, hres, henv]

theorem readOnlyIdempotent_lookupEnvOrDefault (key value : String) :
    ReadOnlyIdempotent (lookupEnvOrDefault key value) :=
  readOnlyIdempotent_of_env _ (fun env => Outcome.ret ((env.lookup key).getD value))
    (fun w => by rw [lookupEnvOrDefault_run]) (fun w => by rw [lookupEnvOrDefault_run])

theorem readOnlyIdempotent_of_presence_run (g : Go (String × Bool)) (key : String)
    (hg : ∀ w : World, g w =
      (Outcome.ret ((w.env.lookup key).getD "", (w.env.lookup key).isSome), w)) :
    ReadOnlyIdempotent g :=
  readOnlyIdempotent_of_env _
    (fun env => Outcome.ret ((env.lookup key).getD "", (env.lookup key).isSome))
    (fun w => by rw [hg]) (fun w => by rw [hg])

theorem readOnlyIdempotent_GetInstascaleOcmSecret :
    ReadOnlyIdempotent GetInstascaleOcmSecret := by
  have hw : ∀ w : World, (GetInstascaleOcmSecret w).2 = w := by
    intro w
    by_cases hs : '/' ∈
        ((w.env.lookup "INSTASCALE_OCM_SECRET").getD "default/instascale-ocm-secret").data
    · obtain ⟨ns, name, hrun, -, -⟩ := GetInstascaleOcmSecret_present w _ rfl hs
      rw [hrun]
    · rw [GetInstascaleOcmSecret_absent w _ rfl hs]
  intro w
  simp only [Go.after, Go.result, hw, and_self]

theorem readOnlyIdempotent_GetClusterType : ReadOnlyIdempotent GetClusterType := by
  refine readOnlyIdempotent_of_env _
    (fun env => match env.lookup "CLUSTER_TYPE" with
      | none => Outcome.ret UndefinedCluster
      | some v =>
        if v = "OSD" then Outcome.ret OsdCluster
        else if v = "OCP" then Outcome.ret OcpCluster
        else if v = "HYPERSHIFT" then Outcome.ret HypershiftCluster
        else if v = "KIND" then Outcome.ret KindCluster
        else Outcome.ret UndefinedCluster) ?_ ?_
  · intro w
    cases h : w.env.lookup "CLUSTER_TYPE" with
    | none => simp [GetClusterType_unset w h, h]
    | some v =>
      simp only [GetClusterType_set w v h, h]
      split_ifs <;> rfl
  · intro w
    cases h : w.env.lookup "CLUSTER_TYPE" with
    | none => simp [GetClusterType_unset w h, World.logged]
    | some v =>
      rw [GetClusterType_set w v h]
      split_ifs <;> simp [World.logged]

theorem readOnlyIdempotent_GetClusterHostname : ReadOnlyIdempotent GetClusterHostname := by
  refine readOnlyIdempotent_of_env _
    (fun env => match env.lookup "CLUSTER_HOSTNAME" with
      | none => Outcome.goexit
      | some v => Outcome.ret v) ?_ ?_
  · intro w
    cases h : w.env.lookup "CLUSTER_HOSTNAME" with
    | none => simp [GetClusterHostname_unset w h, h]
    | some v => simp [GetClusterHostname_set w v h, h]
  · intro w
    cases h : w.env.lookup "CLUSTER_HOSTNAME" with
    | none => simp [GetClusterHostname_unset w h]
    | some v => simp [GetClusterHostname_set w v h]

/-! ## The claims -/

/-- C1. Every default-substituting getter returns its compiled-in default when its
variable is unset, and the value of the variable, whatever string it is (the empty
string included), when it is set. -/
theorem C1_default_substituting_getters (d : Defaults) :
    SubstitutesDefault (GetRayVersion d) "CODEFLARE_TEST_RAY_VERSION" d.RayVersion ∧
    SubstitutesDefault (GetRayImage d) "CODEFLARE_TEST_RAY_IMAGE" d.RayImage ∧
    SubstitutesDefault (GetRayROCmImage d) "CODEFLARE_TEST_RAY_IMAGE" d.RayROCmImage ∧
    SubstitutesDefault (GetRayTorchCudaImage d) "CODEFLARE_TEST_RAY_IMAGE" d.RayTorchCudaImage ∧
    SubstitutesDefault (GetRayTorchROCmImage d) "CODEFLARE_TEST_RAY_IMAGE" d.RayTorchROCmImage ∧
    SubstitutesDefault GetPyTorchImage "CODEFLARE_TEST_PYTORCH_IMAGE"
      "pytorch/pytorch:1.11.0-cuda11.3-cudnn8-runtime" ∧
    SubstitutesDefault GetMnistDatasetURL "MNIST_DATASET_URL"
      "https://ossci-datasets.s3.amazonaws.com/mnist/" ∧
    SubstitutesDefault GetPipIndexURL "PIP_INDEX_URL" "https://pypi.python.org/simple" ∧
    SubstitutesDefault GetPipTrustedHost "PIP_TRUSTED_HOST" "" :=
  ⟨substitutesDefault_lookup _ _, substitutesDefault_lookup _ _, substitutesDefault_lookup _ _,
   substitutesDefault_lookup _ _, substitutesDefault_lookup _ _, substitutesDefault_lookup _ _,
   substitutesDefault_lookup _ _, substitutesDefault_lookup _ _, substitutesDefault_lookup _ _⟩

/-- C1 at concrete worlds: with `PIP_TRUSTED_HOST` set to the empty string and
`MNIST_DATASET_URL` set to `"http://mirror/mnist"`, the two getters return these
values; with an empty environment `GetPyTorchImage` returns its default. -/
theorem C1_default_substituting_getters_witness :
    GetPipTrustedHost.result
        ⟨[("PIP_TRUSTED_HOST", ""), ("MNIST_DATASET_URL", "http://mirror/mnist")],
          ⟨[], false, false⟩⟩ = Outcome.ret "" ∧
    GetMnistDatasetURL.result
        ⟨[("PIP_TRUSTED_HOST", ""), ("MNIST_DATASET_URL", "http://mirror/mnist")],
          ⟨[], false, false⟩⟩ = Outcome.ret "http://mirror/mnist" ∧
    GetPyTorchImage.result ⟨[], ⟨[], false, false⟩⟩ =
      Outcome.ret "pytorch/pytorch:1.11.0-cuda11.3-cudnn8-runtime" :=
  ⟨((C1_default_substituting_getters ⟨"", "", "", "", ""⟩).2.2.2.2.2.2.2.2 _).2 "" (by decide),
   ((C1_default_substituting_getters ⟨"", "", "", "", ""⟩).2.2.2.2.2.2.1 _).2 _ (by decide),
   ((C1_default_substituting_getters ⟨"", "", "", "", ""⟩).2.2.2.2.2.1 _).1 (by decide)⟩

/-- C6. Every presence-reporting getter returns a flag that is true exactly when its
own variable is set, together with the value of the variable when it is set (no default
is substituted) and the empty string when it is not. -/
theorem C6_presence_reporting_getters :
    ReportsPresence GetClusterId "CLUSTERID" ∧
    ReportsPresence GetStorageBucketDefaultEndpoint "AWS_DEFAULT_ENDPOINT" ∧
    ReportsPresence GetStorageBucketDefaultRegion "AWS_DEFAULT_REGION" ∧
    ReportsPresence GetStorageBucketAccessKeyId "AWS_ACCESS_KEY_ID" ∧
    ReportsPresence GetStorageBucketSecretKey "AWS_SECRET_ACCESS_KEY" ∧
    ReportsPresence GetStorageBucketName "AWS_STORAGE_BUCKET" ∧
    ReportsPresence GetStorageBucketMnistDir "AWS_STORAGE_BUCKET_MNIST_DIR" :=
  ⟨reportsPresence_of_run _ _ (LookupEnv_run _), reportsPresence_of_run _ _ (presence_run _),
   reportsPresence_of_run _ _ (presence_run _), reportsPresence_of_run _ _ (presence_run _),
   reportsPresence_of_run _ _ (presence_run _), reportsPresence_of_run _ _ (presence_run _),
   reportsPresence_of_run _ _ (presence_run _)⟩

/-- C6 at concrete worlds: with `CLUSTERID` set to `"abc123"` and `AWS_STORAGE_BUCKET`
unset, `GetClusterId` returns `("abc123", true)` and `GetStorageBucketName` returns
`("", false)`. -/
theorem C6_presence_reporting_getters_witness :
    GetClusterId.result ⟨[("CLUSTERID", "abc123")], ⟨[], false, false⟩⟩ =
      Outcome.ret ("abc123", true) ∧
    GetStorageBucketName.result ⟨[("CLUSTERID", "abc123")], ⟨[], false, false⟩⟩ =
      Outcome.ret ("", false) := by
  constructor
  · obtain ⟨v, b, hres, hb, hset, -⟩ :=
      C6_presence_reporting_getters.1 ⟨[("CLUSTERID", "abc123")], ⟨[], false, false⟩⟩
    rw [hres, hset "abc123" (by decide), hb.mpr ⟨"abc123", by decide⟩]
  · obtain ⟨v, b, hres, hb, -, hunset⟩ :=
      C6_presence_reporting_getters.2.2.2.2.2.1 ⟨[("CLUSTERID", "abc123")], ⟨[], false, false⟩⟩
    have hnone : (World.mk [("CLUSTERID", "abc123")] ⟨[], false, false⟩).env.lookup
        "AWS_STORAGE_BUCKET" = none := by decide
    have hb2 : b = false := by
      cases b
      · rfl
      · obtain ⟨S, hS⟩ := hb.mp rfl
        rw [hnone] at hS
        cases hS
    rw [hres, hunset hnone, hb2]

/-- C10. The four Ray image getters read the one variable `CODEFLARE_TEST_RAY_IMAGE`:
when it is set to `S` all four return `S`, and when it is unset each returns its own
default. -/
theorem C10_ray_image_getters_share_variable (d : Defaults) (w : World) :
    (∀ S : String, w.env.lookup "CODEFLARE_TEST_RAY_IMAGE" = some S →
      (GetRayImage d).result w = Outcome.ret S ∧
      (GetRayROCmImage d).result w = Outcome.ret S ∧
      (GetRayTorchCudaImage d).result w = Outcome.ret S ∧
      (GetRayTorchROCmImage d).result w = Outcome.ret S) ∧
    (w.env.lookup "CODEFLARE_TEST_RAY_IMAGE" = none →
      (GetRayImage d).result w = Outcome.ret d.RayImage ∧
      (GetRayROCmImage d).result w = Outcome.ret d.RayROCmImage ∧
      (GetRayTorchCudaImage d).result w = Outcome.ret d.RayTorchCudaImage ∧
      (GetRayTorchROCmImage d).result w = Outcome.ret d.RayTorchROCmImage) := by
  constructor
  · intro S h
    simp [Go.result, GetRayImage, GetRayROCmImage, GetRayTorchCudaImage, GetRayTorchROCmImage,
      CodeFlareTestRayImage, lookupEnvOrDefault_run, h]
  · intro h
    simp [Go.result, GetRayImage, GetRayROCmImage, GetRayTorchCudaImage, GetRayTorchROCmImage,
      CodeFlareTestRayImage, lookupEnvOrDefault_run, h]

/-- C10 at concrete worlds, with the four defaults `"img"`, `"rocm"`, `"cuda"` and
`"torch-rocm"`: when the variable is set to `"quay.io/ray:x"` the four getters agree,
and in the empty environment they return the four defaults. -/
theorem C10_ray_image_getters_share_variable_witness :
    ((GetRayImage ⟨"2.0", "img", "rocm", "cuda", "torch-rocm"⟩).result
        ⟨[("CODEFLARE_TEST_RAY_IMAGE", "quay.io/ray:x")], ⟨[], false, false⟩⟩ =
        Outcome.ret "quay.io/ray:x" ∧
      (GetRayROCmImage ⟨"2.0", "img", "rocm", "cuda", "torch-rocm"⟩).result
        ⟨[("CODEFLARE_TEST_RAY_IMAGE", "quay.io/ray:x")], ⟨[], false, false⟩⟩ =
        Outcome.ret "quay.io/ray:x" ∧
      (GetRayTorchCudaImage ⟨"2.0", "img", "rocm", "cuda", "torch-rocm"⟩).result
        ⟨[("CODEFLARE_TEST_RAY_IMAGE", "quay.io/ray:x")], ⟨[], false, false⟩⟩ =
        Outcome.ret "quay.io/ray:x" ∧
      (GetRayTorchROCmImage ⟨"2.0", "img", "rocm", "cuda", "torch-rocm"⟩).result
        ⟨[("CODEFLARE_TEST_RAY_IMAGE", "quay.io/ray:x")], ⟨[], false, false⟩⟩ =
        Outcome.ret "quay.io/ray:x") ∧
    ((GetRayImage ⟨"2.0", "img", "rocm", "cuda", "torch-rocm"⟩).result
        ⟨[], ⟨[], false, false⟩⟩ = Outcome.ret "img" ∧
      (GetRayROCmImage ⟨"2.0", "img", "rocm", "cuda", "torch-rocm"⟩).result
        ⟨[], ⟨[], false, false⟩⟩ = Outcome.ret "rocm" ∧
      (GetRayTorchCudaImage ⟨"2.0", "img", "rocm", "cuda", "torch-rocm"⟩).result
        ⟨[], ⟨[], false, false⟩⟩ = Outcome.ret "cuda" ∧
      (GetRayTorchROCmImage ⟨"2.0", "img", "rocm", "cuda", "torch-rocm"⟩).result
        ⟨[], ⟨[], false, false⟩⟩ = Outcome.ret "torch-rocm") :=
  ⟨(C10_ray_image_getters_share_variable _ _).1 _ (by decide),
   (C10_ray_image_getters_share_variable _ _).2 (by decide)⟩

/-- C2. `GetClusterType` always returns a cluster type; it is OSD, OCP, HYPERSHIFT or
KIND exactly when `CLUSTER_TYPE` is set to the literal of that name, and UNDEFINED in
every other case (variable unset, or set to any other string), so it is always one of
the five members of the enumeration. -/
theorem C2_cluster_type_classification (w : World) :
    ∃ c : ClusterType, GetClusterType.result w = Outcome.ret c ∧
      (c = OsdCluster ↔ w.env.lookup "CLUSTER_TYPE" = some "OSD") ∧
      (c = OcpCluster ↔ w.env.lookup "CLUSTER_TYPE" = some "OCP") ∧
      (c = HypershiftCluster ↔ w.env.lookup "CLUSTER_TYPE" = some "HYPERSHIFT") ∧
      (c = KindCluster ↔ w.env.lookup "CLUSTER_TYPE" = some "KIND") ∧
      (c = UndefinedCluster ↔
        (w.env.lookup "CLUSTER_TYPE" = none ∨
          ∃ v : String, w.env.lookup "CLUSTER_TYPE" = some v ∧ v ∉ recognisedClusterTypes)) ∧
      c ∈ [OsdCluster, OcpCluster, HypershiftCluster, KindCluster, UndefinedCluster] := by
  have d1 : OsdCluster ≠ OcpCluster := by decide
  have d2 : OsdCluster ≠ HypershiftCluster := by decide
  have d3 : OsdCluster ≠ KindCluster := by decide
  have d4 : OsdCluster ≠ UndefinedCluster := by decide
  have d5 : OcpCluster ≠ HypershiftCluster := by decide
  have d6 : OcpCluster ≠ KindCluster := by decide
  have d7 : OcpCluster ≠ UndefinedCluster := by decide
  have d8 : HypershiftCluster ≠ KindCluster := by decide
  have d9 : HypershiftCluster ≠ UndefinedCluster := by decide
  have d10 : KindCluster ≠ UndefinedCluster := by decide
  have s1 : ("OSD" : String) ≠ "OCP" := by decide
  have s2 : ("OSD" : String) ≠ "HYPERSHIFT" := by decide
  have s3 : ("OSD" : String) ≠ "KIND" := by decide
  have s4 : ("OCP" : String) ≠ "HYPERSHIFT" := by decide
  have s5 : ("OCP" : String) ≠ "KIND" := by decide
  have s6 : ("HYPERSHIFT" : String) ≠ "KIND" := by decide
  cases h : w.env.lookup "CLUSTER_TYPE" with
  | none =>
    refine ⟨UndefinedCluster, ?_, ?_⟩
    · simp [Go.result, GetClusterType_unset w h]
    · simp [d4.symm, d7.symm, d9.symm, d10.symm]
  | some v =>
    by_cases h1 : v = "OSD"
    · subst h1
      refine ⟨OsdCluster, ?_, ?_⟩
      · simp [Go.result, GetClusterType_set w _ h]
      · simp [d1, d2, d3, d4, s1, s2, s3, recognisedClusterTypes]
    by_cases h2 : v = "OCP"
    · subst h2
      refine ⟨OcpCluster, ?_, ?_⟩
      · simp [Go.result, GetClusterType_set w _ h, s1.symm]
      · simp [d1.symm, d5, d6, d7, s1.symm, s4, s5, recognisedClusterTypes]
    by_cases h3 : v = "HYPERSHIFT"
    · subst h3
      refine ⟨HypershiftCluster, ?_, ?_⟩
      · simp [Go.result, GetClusterType_set w _ h, s2.symm, s4.symm]
      · simp [d2.symm, d5.symm, d8, d9, s2.symm, s4.symm, s6, recognisedClusterTypes]
    by_cases h4 : v = "KIND"
    · subst h4
      refine ⟨KindCluster, ?_, ?_⟩
      · simp [Go.result, GetClusterType_set w _ h, s3.symm, s5.symm, s6.symm]
      · simp [d3.symm, d6.symm, d8.symm, d10, s3.symm, s5.symm, s6.symm, recognisedClusterTypes]
    refine ⟨UndefinedCluster, ?_, ?_⟩
    · simp [Go.result, GetClusterType_set w _ h, h1, h2, h3, h4]
    · simp [d4.symm, d7.symm, d9.symm, d10.symm, h1, h2, h3, h4, recognisedClusterTypes]

/-- C2 at concrete worlds: `"KIND"` gives KIND, while `"osd"`, `"BOGUS"`, the empty
string and an unset variable give UNDEFINED. -/
theorem C2_cluster_type_classification_witness :
    GetClusterType.result ⟨[("CLUSTER_TYPE", "KIND")], ⟨[], false, false⟩⟩ =
      Outcome.ret KindCluster ∧
    GetClusterType.result ⟨[("CLUSTER_TYPE", "osd")], ⟨[], false, false⟩⟩ =
      Outcome.ret UndefinedCluster ∧
    GetClusterType.result ⟨[("CLUSTER_TYPE", "BOGUS")], ⟨[], false, false⟩⟩ =
      Outcome.ret UndefinedCluster ∧
    GetClusterType.result ⟨[("CLUSTER_TYPE", "")], ⟨[], false, false⟩⟩ =
      Outcome.ret UndefinedCluster ∧
    GetClusterType.result ⟨[], ⟨[], false, false⟩⟩ = Outcome.ret UndefinedCluster := by
  refine ⟨?_, ?_, ?_, ?_, ?_⟩
  · obtain ⟨c, hres, -, -, -, hk, -, -⟩ :=
      C2_cluster_type_classification ⟨[("CLUSTER_TYPE", "KIND")], ⟨[], false, false⟩⟩
    rw [hres, hk.mpr (by decide)]
  · obtain ⟨c, hres, -, -, -, -, hu, -⟩ :=
      C2_cluster_type_classification ⟨[("CLUSTER_TYPE", "osd")], ⟨[], false, false⟩⟩
    rw [hres, hu.mpr (Or.inr ⟨"osd", by decide, by decide⟩)]
  · obtain ⟨c, hres, -, -, -, -, hu, -⟩ :=
      C2_cluster_type_classification ⟨[("CLUSTER_TYPE", "BOGUS")], ⟨[], false, false⟩⟩
    rw [hres, hu.mpr (Or.inr ⟨"BOGUS", by decide, by decide⟩)]
  · obtain ⟨c, hres, -, -, -, -, hu, -⟩ :=
      C2_cluster_type_classification ⟨[("CLUSTER_TYPE", "")], ⟨[], false, false⟩⟩
    rw [hres, hu.mpr (Or.inr ⟨"", by decide, by decide⟩)]
  · obtain ⟨c, hres, -, -, -, -, hu, -⟩ :=
      C2_cluster_type_classification ⟨[], ⟨[], false, false⟩⟩
    rw [hres, hu.mpr (Or.inl (by decide))]

/-- C3. `GetInstascaleOcmSecret` splits the resolved `INSTASCALE_OCM_SECRET` string on
its first `/`: when the variable is unset it returns `("default",
"instascale-ocm-secret")`, and when it is set to a string `V` that contains `/` it
returns a pair `(ns, name)` where `ns` contains no `/` and `ns ++ "/" ++ name = V`. -/
theorem C3_ocm_secret_split (w : World) :
    (w.env.lookup "INSTASCALE_OCM_SECRET" = none →
      GetInstascaleOcmSecret.result w = Outcome.ret ("default", "instascale-ocm-secret")) ∧
    (∀ V : String, w.env.lookup "INSTASCALE_OCM_SECRET" = some V → '/' ∈ V.data →
      ∃ ns name : String, GetInstascaleOcmSecret.result w = Outcome.ret (ns, name) ∧
        '/' ∉ ns.data ∧ ns ++ "/" ++ name = V ∧
        strings.SplitN V "/" 2 = [ns, name]) := by
  constructor
  · intro h
    have hsplit : strings.SplitN "default/instascale-ocm-secret" "/" 2 =
        ["default", "instascale-ocm-secret"] := by decide
    simp only [Go.result, GetInstascaleOcmSecret_run, h, Option.getD_none, hsplit]
    rfl
  · intro V h hV
    obtain ⟨ns, name, hsplit, hns, hcat⟩ := SplitN_slash_present V hV
    refine ⟨ns, name, ?_, hns, hcat, hsplit⟩
    simp only [Go.result, GetInstascaleOcmSecret_run, h, Option.getD_some, hsplit]
    rfl

/-- C3 at concrete worlds: unset gives `("default", "instascale-ocm-secret")`,
`"ns1/secretname"` gives `("ns1", "secretname")`, and in `"a/b/c"` the second `/` stays
in the name. -/
theorem C3_ocm_secret_split_witness :
    GetInstascaleOcmSecret.result ⟨[], ⟨[], false, false⟩⟩ =
      Outcome.ret ("default", "instascale-ocm-secret") ∧
    (∃ ns name : String,
      GetInstascaleOcmSecret.result
        ⟨[("INSTASCALE_OCM_SECRET", "ns1/secretname")], ⟨[], false, false⟩⟩ =
        Outcome.ret (ns, name) ∧
      '/' ∉ ns.data ∧ ns ++ "/" ++ name = "ns1/secretname" ∧
      strings.SplitN "ns1/secretname" "/" 2 = [ns, name]) ∧
    GetInstascaleOcmSecret.result
        ⟨[("INSTASCALE_OCM_SECRET", "ns1/secretname")], ⟨[], false, false⟩⟩ =
      Outcome.ret ("ns1", "secretname") ∧
    GetInstascaleOcmSecret.result
        ⟨[("INSTASCALE_OCM_SECRET", "a/b/c")], ⟨[], false, false⟩⟩ =
      Outcome.ret ("a", "b/c") :=
  ⟨(C3_ocm_secret_split _).1 (by decide),
   (C3_ocm_secret_split _).2 "ns1/secretname" (by decide) (by decide),
   by decide, by decide⟩

/-- C4. When `INSTASCALE_OCM_SECRET` is set to a value without `/` the split has one
element and `GetInstascaleOcmSecret` ends in the run-time panic `index out of range [1]
with length 1`; the world is left as it was, so nothing is written to the log of the
test and the test is not marked as failed: the function reports no error of its own. -/
theorem C4_separatorless_secret_panics (w : World) (V : String)
    (hset : w.env.lookup "INSTASCALE_OCM_SECRET" = some V) (hsep : '/' ∉ V.data) :
    strings.SplitN V "/" 2 = [V] ∧
    GetInstascaleOcmSecret w = (Outcome.panicked (GoPanic.indexOutOfRange 1 1), w) :=
  ⟨SplitN_slash_absent V hsep,
   GetInstascaleOcmSecret_absent w V (by rw [hset, Option.getD_some]) hsep⟩

/-- C4 at the value `"novalue"`, starting from a test with an empty log. -/
theorem C4_separatorless_secret_panics_witness :
    strings.SplitN "novalue" "/" 2 = ["novalue"] ∧
    GetInstascaleOcmSecret ⟨[("INSTASCALE_OCM_SECRET", "novalue")], ⟨[], false, false⟩⟩ =
      (Outcome.panicked (GoPanic.indexOutOfRange 1 1),
        ⟨[("INSTASCALE_OCM_SECRET", "novalue")], ⟨[], false, false⟩⟩) :=
  C4_separatorless_secret_panics _ "novalue" (by decide) (by decide)

/-- C9. `GetInstascaleOcmSecret` ends in an out-of-range panic on the second element
of the split exactly when the resolved `INSTASCALE_OCM_SECRET` string `V` contains no
`/`; the split then has the single element `V`.  When `V` contains `/`, and in
particular when the variable is unset, it returns a pair. -/
theorem C9_ocm_secret_out_of_range (w : World) (V : String)
    (hV : (lookupEnvOrDefault InstaScaleOcmSecret "default/instascale-ocm-secret").result w =
      Outcome.ret V) :
    (GetInstascaleOcmSecret.result w = Outcome.panicked (GoPanic.indexOutOfRange 1 1) ↔
      '/' ∉ V.data) ∧
    ((∃ p : GoPanic, GetInstascaleOcmSecret.result w = Outcome.panicked p) ↔ '/' ∉ V.data) ∧
    ('/' ∉ V.data → strings.SplitN V "/" 2 = [V]) ∧
    ((∃ ns name : String, GetInstascaleOcmSecret.result w = Outcome.ret (ns, name)) ↔
      '/' ∈ V.data) ∧
    (w.env.lookup "INSTASCALE_OCM_SECRET" = none →
      ∃ ns name : String, GetInstascaleOcmSecret.result w = Outcome.ret (ns, name)) ∧
    (w.env.lookup "INSTASCALE_OCM_SECRET" = some "" →
      GetInstascaleOcmSecret.result w = Outcome.panicked (GoPanic.indexOutOfRange 1 1)) := by
  have hV2 : (w.env.lookup "INSTASCALE_OCM_SECRET").getD "default/instascale-ocm-secret" = V := by
    simpa [Go.result, lookupEnvOrDefault_run, InstaScaleOcmSecret] using hV
  by_cases hs : '/' ∈ V.data
  · obtain ⟨ns, name, hrun, -, -⟩ := GetInstascaleOcmSecret_present w V hV2 hs
    have hres : GetInstascaleOcmSecret.result w = Outcome.ret (ns, name) := by
      simp [Go.result, hrun]
    refine ⟨?_, ?_, ?_, ?_, ?_, ?_⟩
    · simp [hres, hs]
    · simp [hres, hs]
    · intro h
      exact absurd hs h
    · simp [hres, hs]
    · intro _
      exact ⟨ns, name, hres⟩
    · intro h
      rw [h] at hV2
      subst hV2
      exact absurd hs (by decide)
  · have hres : GetInstascaleOcmSecret.result w =
        Outcome.panicked (GoPanic.indexOutOfRange 1 1) := by
      simp [Go.result, GetInstascaleOcmSecret_absent w V hV2 hs]
    refine ⟨?_, ?_, ?_, ?_, ?_, ?_⟩
    · simp [hres, hs]
    · simp [hres, hs]
    · intro _
      exact SplitN_slash_absent V hs
    · simp [hres, hs]
    · intro h
      rw [h] at hV2
      subst hV2
      exact absurd (by decide) hs
    · intro _
      exact hres

/-- C9 at concrete worlds: the empty string and `"novalue"` end in the panic, and
`"ns1/secretname"` does not. -/
theorem C9_ocm_secret_out_of_range_witness :
    GetInstascaleOcmSecret.result ⟨[("INSTASCALE_OCM_SECRET", "")], ⟨[], false, false⟩⟩ =
      Outcome.panicked (GoPanic.indexOutOfRange 1 1) ∧
    (∃ p : GoPanic,
      GetInstascaleOcmSecret.result
        ⟨[("INSTASCALE_OCM_SECRET", "dev-secret")], ⟨[], false, false⟩⟩ =
      Outcome.panicked p) ∧
    ¬ (∃ p : GoPanic,
      GetInstascaleOcmSecret.result
        ⟨[("INSTASCALE_OCM_SECRET", "ns1/secretname")], ⟨[], false, false⟩⟩ =
      Outcome.panicked p) :=
  ⟨(C9_ocm_secret_out_of_range ⟨[("INSTASCALE_OCM_SECRET", "")], ⟨[], false, false⟩⟩ ""
      (by decide)).1.mpr (by decide),
   (C9_ocm_secret_out_of_range ⟨[("INSTASCALE_OCM_SECRET", "dev-secret")], ⟨[], false, false⟩⟩
      "dev-secret" (by decide)).2.1.mpr (by decide),
   fun h => (C9_ocm_secret_out_of_range
      ⟨[("INSTASCALE_OCM_SECRET", "ns1/secretname")], ⟨[], false, false⟩⟩
      "ns1/secretname" (by decide)).2.1.mp h (by decide)⟩

/-- C5. `GetClusterHostname` reaches the fatal-failure reporter exactly when
`CLUSTER_HOSTNAME` is unset: set to `S` (the empty string included) it returns `S` and
leaves the test untouched; unset, it logs the message, marks the test as failed and
finished, stops the goroutine and returns no value. -/
theorem C5_cluster_hostname_fatal_iff_unset (w : World) :
    (GetClusterHostname.result w = Outcome.goexit ↔ w.env.lookup "CLUSTER_HOSTNAME" = none) ∧
    (∀ S : String, w.env.lookup "CLUSTER_HOSTNAME" = some S →
      GetClusterHostname.result w = Outcome.ret S ∧ GetClusterHostname.after w = w) ∧
    (w.env.lookup "CLUSTER_HOSTNAME" = none →
      (∀ S : String, GetClusterHostname.result w ≠ Outcome.ret S) ∧
      (GetClusterHostname.after w).t.failed = true ∧
      (GetClusterHostname.after w).t.finished = true ∧
      (GetClusterHostname.after w).t.output = w.t.output ++
        ["Expected environment variable CLUSTER_HOSTNAME not found, please define cluster hostname."] ∧
      (GetClusterHostname.after w).env = w.env) := by
  cases h : w.env.lookup "CLUSTER_HOSTNAME" with
  | none => simp [Go.result, Go.after, GetClusterHostname_unset w h]
  | some v => simp [Go.result, Go.after, GetClusterHostname_set w v h]

/-- C5 at concrete worlds: set to `"cluster.example.com"` or to the empty string the
value comes back, and in the empty environment the test is stopped. -/
theorem C5_cluster_hostname_fatal_iff_unset_witness :
    GetClusterHostname.result
        ⟨[("CLUSTER_HOSTNAME", "cluster.example.com")], ⟨[], false, false⟩⟩ =
      Outcome.ret "cluster.example.com" ∧
    GetClusterHostname.result ⟨[("CLUSTER_HOSTNAME", "")], ⟨[], false, false⟩⟩ =
      Outcome.ret "" ∧
    GetClusterHostname.result ⟨[], ⟨[], false, false⟩⟩ = Outcome.goexit ∧
    (GetClusterHostname.after ⟨[], ⟨[], false, false⟩⟩).t.failed = true :=
  ⟨((C5_cluster_hostname_fatal_iff_unset _).2.1 "cluster.example.com" (by decide)).1,
   ((C5_cluster_hostname_fatal_iff_unset _).2.1 "" (by decide)).1,
   (C5_cluster_hostname_fatal_iff_unset _).1.mpr (by decide),
   ((C5_cluster_hostname_fatal_iff_unset _).2.2 (by decide)).2.1⟩

/-- C7. `GetClusterType` never stops or fails the test and touches nothing but the
log: it adds exactly one line when `CLUSTER_TYPE` is unset (the "is unset" message) or
set to an unrecognised string (the "incorrect value" message with the raw string), these
being exactly the cases in which it returns UNDEFINED, and adds nothing when the value
is one of the four recognised literals. -/
theorem C7_cluster_type_only_logs (w : World) :
    GetClusterType.result w ≠ Outcome.goexit ∧
    (GetClusterType.after w).env = w.env ∧
    (GetClusterType.after w).t.failed = w.t.failed ∧
    (GetClusterType.after w).t.finished = w.t.finished ∧
    (w.env.lookup "CLUSTER_TYPE" = none →
      (GetClusterType.after w).t.output =
        w.t.output ++ ["Environment variable CLUSTER_TYPE is unset."]) ∧
    (∀ v : String, w.env.lookup "CLUSTER_TYPE" = some v → v ∉ recognisedClusterTypes →
      (GetClusterType.after w).t.output = w.t.output ++
        ["Environment variable CLUSTER_TYPE is unset or contains an incorrect value: '"
          ++ v ++ "'"]) ∧
    (∀ v : String, w.env.lookup "CLUSTER_TYPE" = some v → v ∈ recognisedClusterTypes →
      GetClusterType.after w = w) ∧
    (GetClusterType.result w = Outcome.ret UndefinedCluster ↔
      ∃ line : String, (GetClusterType.after w).t.output = w.t.output ++ [line]) ∧
    (GetClusterType.result w ≠ Outcome.ret UndefinedCluster ↔
      (GetClusterType.after w).t.output = w.t.output) := by
  have d4 : OsdCluster ≠ UndefinedCluster := by decide
  have d7 : OcpCluster ≠ UndefinedCluster := by decide
  have d9 : HypershiftCluster ≠ UndefinedCluster := by decide
  have d10 : KindCluster ≠ UndefinedCluster := by decide
  have s1 : ("OSD" : String) ≠ "OCP" := by decide
  have s2 : ("OSD" : String) ≠ "HYPERSHIFT" := by decide
  have s3 : ("OSD" : String) ≠ "KIND" := by decide
  have s4 : ("OCP" : String) ≠ "HYPERSHIFT" := by decide
  have s5 : ("OCP" : String) ≠ "KIND" := by decide
  have s6 : ("HYPERSHIFT" : String) ≠ "KIND" := by decide
  cases h : w.env.lookup "CLUSTER_TYPE" with
  | none => simp [Go.result, Go.after, GetClusterType_unset w h, World.logged]
  | some v =>
    by_cases h1 : v = "OSD"
    · subst h1
      simp [Go.result, Go.after, GetClusterType_set w _ h, recognisedClusterTypes, d4]
    by_cases h2 : v = "OCP"
    · subst h2
      simp [Go.result, Go.after, GetClusterType_set w _ h, recognisedClusterTypes, d7, s1.symm]
    by_cases h3 : v = "HYPERSHIFT"
    · subst h3
      simp [Go.result, Go.after, GetClusterType_set w _ h, recognisedClusterTypes, d9,
        s2.symm, s4.symm]
    by_cases h4 : v = "KIND"
    · subst h4
      simp [Go.result, Go.after, GetClusterType_set w _ h, recognisedClusterTypes, d10,
        s3.symm, s5.symm, s6.symm]
    simp [Go.result, Go.after, GetClusterType_set w _ h, recognisedClusterTypes, World.logged,
      h1, h2, h3, h4]

/-- C7 at concrete worlds: `"osd"` adds the "incorrect value" line, an unset variable
adds the "is unset" line, and `"OCP"` leaves the world as it was. -/
theorem C7_cluster_type_only_logs_witness :
    (GetClusterType.after ⟨[("CLUSTER_TYPE", "osd")], ⟨["earlier"], false, false⟩⟩).t.output =
      ["earlier",
        "Environment variable CLUSTER_TYPE is unset or contains an incorrect value: 'osd'"] ∧
    (GetClusterType.after ⟨[], ⟨["earlier"], false, false⟩⟩).t.output =
      ["earlier", "Environment variable CLUSTER_TYPE is unset."] ∧
    GetClusterType.after ⟨[("CLUSTER_TYPE", "OCP")], ⟨["earlier"], false, false⟩⟩ =
      ⟨[("CLUSTER_TYPE", "OCP")], ⟨["earlier"], false, false⟩⟩ :=
  ⟨(C7_cluster_type_only_logs _).2.2.2.2.2.1 "osd" (by decide) (by decide),
   (C7_cluster_type_only_logs _).2.2.2.2.1 (by decide),
   (C7_cluster_type_only_logs _).2.2.2.2.2.2.1 "OCP" (by decide) (by decide)⟩

/-- C8. Every getter treats the environment as read-only: a call leaves the
environment unchanged, and a second call made right after the first one ends in the
same way (same value, same presence flag, same cluster type, same failure). -/
theorem C8_getters_read_only_idempotent (d : Defaults) :
    ReadOnlyIdempotent (GetRayVersion d) ∧
    ReadOnlyIdempotent (GetRayImage d) ∧
    ReadOnlyIdempotent (GetRayROCmImage d) ∧
    ReadOnlyIdempotent (GetRayTorchCudaImage d) ∧
    ReadOnlyIdempotent (GetRayTorchROCmImage d) ∧
    ReadOnlyIdempotent GetPyTorchImage ∧
    ReadOnlyIdempotent GetInstascaleOcmSecret ∧
    ReadOnlyIdempotent GetClusterId ∧
    ReadOnlyIdempotent GetClusterType ∧
    ReadOnlyIdempotent GetClusterHostname ∧
    ReadOnlyIdempotent GetMnistDatasetURL ∧
    ReadOnlyIdempotent GetStorageBucketDefaultEndpoint ∧
    ReadOnlyIdempotent GetStorageBucketDefaultRegion ∧
    ReadOnlyIdempotent GetStorageBucketAccessKeyId ∧
    ReadOnlyIdempotent GetStorageBucketSecretKey ∧
    ReadOnlyIdempotent GetStorageBucketName ∧
    ReadOnlyIdempotent GetStorageBucketMnistDir ∧
    ReadOnlyIdempotent GetPipIndexURL ∧
    ReadOnlyIdempotent GetPipTrustedHost :=
  ⟨readOnlyIdempotent_lookupEnvOrDefault _ _, readOnlyIdempotent_lookupEnvOrDefault _ _,
   readOnlyIdempotent_lookupEnvOrDefault _ _, readOnlyIdempotent_lookupEnvOrDefault _ _,
   readOnlyIdempotent_lookupEnvOrDefault _ _, readOnlyIdempotent_lookupEnvOrDefault _ _,
   readOnlyIdempotent_GetInstascaleOcmSecret,
   readOnlyIdempotent_of_presence_run _ _ (LookupEnv_run _),
   readOnlyIdempotent_GetClusterType,
   readOnlyIdempotent_GetClusterHostname,
   readOnlyIdempotent_lookupEnvOrDefault _ _,
   readOnlyIdempotent_of_presence_run _ _ (presence_run _),
   readOnlyIdempotent_of_presence_run _ _ (presence_run _),
   readOnlyIdempotent_of_presence_run _ _ (presence_run _),
   readOnlyIdempotent_of_presence_run _ _ (presence_run _),
   readOnlyIdempotent_of_presence_run _ _ (presence_run _),
   readOnlyIdempotent_of_presence_run _ _ (presence_run _),
   readOnlyIdempotent_lookupEnvOrDefault _ _, readOnlyIdempotent_lookupEnvOrDefault _ _⟩

/-- C8 at a concrete world in which `CLUSTER_TYPE` is `"osd"` and `CLUSTER_HOSTNAME` is
unset: the first call of `GetClusterType` and of `GetClusterHostname` changes the log of
the test, the environment stays as it was, and the second call ends as the first. -/
theorem C8_getters_read_only_idempotent_witness :
    (GetClusterType.after ⟨[("CLUSTER_TYPE", "osd")], ⟨[], false, false⟩⟩).env =
      [("CLUSTER_TYPE", "osd")] ∧
    GetClusterType.result
        (GetClusterType.after ⟨[("CLUSTER_TYPE", "osd")], ⟨[], false, false⟩⟩) =
      GetClusterType.result ⟨[("CLUSTER_TYPE", "osd")], ⟨[], false, false⟩⟩ ∧
    GetClusterHostname.result
        (GetClusterHostname.after ⟨[("CLUSTER_TYPE", "osd")], ⟨[], false, false⟩⟩) =
      GetClusterHostname.result ⟨[("CLUSTER_TYPE", "osd")], ⟨[], false, false⟩⟩ ∧
    GetClusterType.after ⟨[("CLUSTER_TYPE", "osd")], ⟨[], false, false⟩⟩ ≠
      ⟨[("CLUSTER_TYPE", "osd")], ⟨[], false, false⟩⟩ :=
  ⟨((C8_getters_read_only_idempotent ⟨"", "", "", "", ""⟩).2.2.2.2.2.2.2.2.1 _).1,
   ((C8_getters_read_only_idempotent ⟨"", "", "", "", ""⟩).2.2.2.2.2.2.2.2.1 _).2,
   ((C8_getters_read_only_idempotent ⟨"", "", "", "", ""⟩).2.2.2.2.2.2.2.2.2.1 _).2,
   by decide⟩

end Support
